import Mathlib

/-!
A shallow embedding of the CHP + boiler dispatch optimizer:
Formulation A (`src/models/ortools_model.py`), Formulation B
(`src/models/pypsa_model.py`) and the cross-model comparator
(`src/utils/analysis.py`). Real-valued solver quantities are modelled
with `ℚ`.
-/

/-! ## Formulation A: the direct MIP built by `ORToolsOptimizer._build_model` -/

/-- The decision variables created per time step `t` in `_build_model`:
`chp_gas_{t}`, `chp_on_{t}`, `bl_gas_{t}`. -/
inductive VarId where
  | chpGas : Nat → VarId
  | chpStatus : Nat → VarId
  | boilerGas : Nat → VarId
deriving DecidableEq

/-- `NumVar` vs `IntVar` in OR-Tools. -/
inductive VarKind where
  | continuous : VarKind
  | integer : VarKind
deriving DecidableEq

/-- A declared variable with its bounds, as created by
`solver.NumVar(lo, hi, name)` / `solver.IntVar(lo, hi, name)`. -/
structure VarDecl where
  id : VarId
  lo : ℚ
  hi : ℚ
  kind : VarKind

/-- One linear term `coeff * variable`. -/
structure LinTerm where
  coeff : ℚ
  var : VarId

/-- Comparison sense of a constraint added with `solver.Add`. -/
inductive CRel where
  | le : CRel
  | ge : CRel
  | eq : CRel

/-- A constraint `lhs REL rhsTerms + rhsConst` as passed to `solver.Add`. -/
structure Constraint where
  lhs : List LinTerm
  rel : CRel
  rhsTerms : List LinTerm
  rhsConst : ℚ

/-- Value of a linear combination of variables under assignment `x`. -/
def evalTerms (x : VarId → ℚ) (ts : List LinTerm) : ℚ :=
  (ts.map (fun p => p.coeff * x p.var)).sum

/-- An assignment satisfies one constraint. -/
def conHolds (x : VarId → ℚ) (c : Constraint) : Prop :=
  match c.rel with
  | .le => evalTerms x c.lhs ≤ evalTerms x c.rhsTerms + c.rhsConst
  | .ge => evalTerms x c.rhsTerms + c.rhsConst ≤ evalTerms x c.lhs
  | .eq => evalTerms x c.lhs = evalTerms x c.rhsTerms + c.rhsConst

/-- An assignment respects a variable declaration: within bounds, and
integral when the variable was created with `IntVar`. -/
def varHolds (x : VarId → ℚ) (v : VarDecl) : Prop :=
  v.lo ≤ x v.id ∧ x v.id ≤ v.hi ∧ (v.kind = .integer → ∃ n : ℤ, x v.id = (n : ℚ))

/-- The model assembled by `_build_model`: variable declarations and
constraints (the objective is kept separately, mirroring the
`solver.Objective()` object). -/
structure MipModel where
  vars : List VarDecl
  cons : List Constraint
  maximize : Bool

/-- An assignment satisfies the whole model. -/
def satisfies (m : MipModel) (x : VarId → ℚ) : Prop :=
  (∀ v ∈ m.vars, varHolds x v) ∧ (∀ c ∈ m.cons, conHolds x c)

/-- `config["chp"]`: the CHP parameter block (validated values). -/
structure ChpParams where
  p_gas_max : ℚ
  p_gas_min : ℚ
  eta_el : ℚ
  eta_th : ℚ
  marginal_cost : ℚ

/-- `config["boiler"]`: the boiler parameter block (validated values). -/
structure BoilerParams where
  p_gas_max : ℚ
  eta_th : ℚ
  marginal_cost : ℚ

/-- The configuration values `_build_model` reads. -/
structure Params where
  chp : ChpParams
  boiler : BoilerParams
  co2_intensity_gas : ℚ
  co2_price : ℚ

/-- The horizon-aligned time series (`price_gas`, `price_el`, `demand_th`
columns of the input DataFrame, `T = len(self.data)`). -/
structure SeriesData where
  T : Nat
  price_gas : Nat → ℚ
  price_el : Nat → ℚ
  demand_th : Nat → ℚ

/-- `gas_cost_total = price_gas + co2_price * co2_intensity_gas`. -/
def gasCostTotal (cfg : Params) (data : SeriesData) (t : Nat) : ℚ :=
  data.price_gas t + cfg.co2_price * cfg.co2_intensity_gas

/-- The constraints added for time step `t`:
`chp_gas[t] <= p_gas_max * chp_status[t]`,
`chp_gas[t] >= p_gas_min * chp_status[t]`,
`eta_th_chp * chp_gas[t] + eta_th_boiler * boiler_gas[t] == demand[t]`. -/
def stepCons (cfg : Params) (data : SeriesData) (t : Nat) : List Constraint :=
  [⟨[⟨1, .chpGas t⟩], .le, [⟨cfg.chp.p_gas_max, .chpStatus t⟩], 0⟩,
   ⟨[⟨1, .chpGas t⟩], .ge, [⟨cfg.chp.p_gas_min, .chpStatus t⟩], 0⟩,
   ⟨[⟨cfg.chp.eta_th, .chpGas t⟩, ⟨cfg.boiler.eta_th, .boilerGas t⟩], .eq,
     [], data.demand_th t⟩]

/-- The model built by `ORToolsOptimizer._build_model`: per `t`, a
continuous `chp_gas[t] ∈ [0, p_gas_max_chp]`, an integer
`chp_status[t] ∈ [0, 1]`, a continuous `boiler_gas[t] ∈ [0, p_gas_max_boiler]`,
and the three constraints of `stepCons`; `objective.SetMaximization()`. -/
def buildModel (cfg : Params) (data : SeriesData) : MipModel :=
  { vars :=
      (List.range data.T).map (fun t => ⟨.chpGas t, 0, cfg.chp.p_gas_max, .continuous⟩)
      ++ (List.range data.T).map (fun t => ⟨.chpStatus t, 0, 1, .integer⟩)
      ++ (List.range data.T).map (fun t => ⟨.boilerGas t, 0, cfg.boiler.p_gas_max, .continuous⟩)
    cons := (List.range data.T).flatMap (stepCons cfg data)
    maximize := true }

/-- `coeff_chp = price_el[t] * eta_el - gas_cost_total[t] - marginal_cost`. -/
def coeffChp (cfg : Params) (data : SeriesData) (t : Nat) : ℚ :=
  data.price_el t * cfg.chp.eta_el - gasCostTotal cfg data t - cfg.chp.marginal_cost

/-- `coeff_boiler = -gas_cost_total[t] - marginal_cost`. -/
def coeffBoiler (cfg : Params) (data : SeriesData) (t : Nat) : ℚ :=
  -gasCostTotal cfg data t - cfg.boiler.marginal_cost

/-- `objective.SetCoefficient(v, c)`: overwrite the coefficient of `v`. -/
def setCoeff (m : VarId → ℚ) (v : VarId) (c : ℚ) : VarId → ℚ :=
  fun w => if w = v then c else m w

/-- One iteration of the build loop on the objective: set the CHP gas and
boiler gas coefficients for time step `t`. -/
def objStep (a b : Nat → ℚ) (m : VarId → ℚ) (t : Nat) : VarId → ℚ :=
  setCoeff (setCoeff m (.chpGas t) (a t)) (.boilerGas t) (b t)

/-- The objective coefficients after the build loop; every coefficient not
set by `SetCoefficient` is `0`. -/
def buildObjective (cfg : Params) (data : SeriesData) : VarId → ℚ :=
  (List.range data.T).foldl (objStep (coeffChp cfg data) (coeffBoiler cfg data))
    (fun _ => 0)

/-! ### Lemmas about the built model -/

theorem evalTerms_nil (x : VarId → ℚ) : evalTerms x [] = 0 := rfl

theorem evalTerms_cons (x : VarId → ℚ) (p : LinTerm) (ts : List LinTerm) :
    evalTerms x (p :: ts) = p.coeff * x p.var + evalTerms x ts := by
  simp [evalTerms]

theorem binary_of_bounds (s : ℚ) (h0 : 0 ≤ s) (h1 : s ≤ 1)
    (hi : ∃ n : ℤ, s = (n : ℚ)) : s = 0 ∨ s = 1 := by
  obtain ⟨n, rfl⟩ := hi
  have hn0 : 0 ≤ n := by exact_mod_cast h0
  have hn1 : n ≤ 1 := by exact_mod_cast h1
  interval_cases n
  · exact Or.inl (by norm_num)
  · exact Or.inr (by norm_num)

/-- Unfolding characterisation of satisfaction of the built model: an
assignment satisfies the model iff for every `t < T` it respects the three
variable bounds (with `chp_status[t]` binary) and the three constraints. -/
theorem satisfies_buildModel_iff (cfg : Params) (data : SeriesData) (x : VarId → ℚ) :
    satisfies (buildModel cfg data) x ↔
      ∀ t < data.T,
        (0 ≤ x (.chpGas t) ∧ x (.chpGas t) ≤ cfg.chp.p_gas_max) ∧
        (x (.chpStatus t) = 0 ∨ x (.chpStatus t) = 1) ∧
        (0 ≤ x (.boilerGas t) ∧ x (.boilerGas t) ≤ cfg.boiler.p_gas_max) ∧
        x (.chpGas t) ≤ cfg.chp.p_gas_max * x (.chpStatus t) ∧
        cfg.chp.p_gas_min * x (.chpStatus t) ≤ x (.chpGas t) ∧
        cfg.chp.eta_th * x (.chpGas t) + cfg.boiler.eta_th * x (.boilerGas t)
          = data.demand_th t := by
  unfold satisfies buildModel
  rw [List.forall_mem_append, List.forall_mem_append]
  simp only [List.forall_mem_map, List.forall_mem_flatMap, List.mem_range]
  constructor
  · rintro ⟨⟨⟨hg, hs⟩, hb⟩, hc⟩ t ht
    obtain ⟨hg0, hg1, -⟩ := hg t ht
    obtain ⟨hs0, hs1, hsi⟩ := hs t ht
    obtain ⟨hb0, hb1, -⟩ := hb t ht
    have hcs := hc t ht
    simp only [stepCons, List.forall_mem_cons, List.forall_mem_singleton] at hcs
    obtain ⟨h1, h2, h3⟩ := hcs
    simp only [conHolds, evalTerms_cons, evalTerms_nil] at h1 h2 h3
    refine ⟨⟨hg0, hg1⟩, binary_of_bounds _ hs0 hs1 (hsi rfl), ⟨hb0, hb1⟩, ?_, ?_, ?_⟩
    · linarith
    · linarith
    · linarith
  · intro h
    refine ⟨⟨⟨?_, ?_⟩, ?_⟩, ?_⟩
    · intro t ht
      obtain ⟨⟨h0, h1⟩, -⟩ := h t ht
      exact ⟨h0, h1, fun hk => by cases hk⟩
    · intro t ht
      obtain ⟨-, hbin, -⟩ := h t ht
      rcases hbin with h0 | h1
      · exact ⟨by rw [h0], by rw [h0]; norm_num, fun _ => ⟨0, by rw [h0]; norm_num⟩⟩
      · exact ⟨by rw [h1]; norm_num, by rw [h1], fun _ => ⟨1, by rw [h1]; norm_num⟩⟩
    · intro t ht
      obtain ⟨-, -, ⟨h0, h1⟩, -⟩ := h t ht
      exact ⟨h0, h1, fun hk => by cases hk⟩
    · intro t ht
      obtain ⟨-, -, -, hle, hge, heq⟩ := h t ht
      simp only [stepCons, List.forall_mem_cons]
      refine ⟨?_, ?_, ?_, by simp⟩ <;>
        simp only [conHolds, evalTerms_cons, evalTerms_nil] <;> linarith

/-! ### The objective map of Formulation A -/

theorem foldl_objStep_chpGas (a b : Nat → ℚ) (l : List Nat) (m : VarId → ℚ) (t : Nat) :
    (l.foldl (objStep a b) m) (.chpGas t) =
      if t ∈ l then a t else m (.chpGas t) := by
  induction l generalizing m with
  | nil => simp
  | cons u l ih =>
    simp only [List.foldl_cons, ih, List.mem_cons]
    by_cases hl : t ∈ l
    · simp [hl]
    · by_cases hu : t = u
      · subst hu
        simp [hl, objStep, setCoeff]
      · simp only [hl, if_false, objStep, setCoeff]
        have h1 : VarId.chpGas t ≠ VarId.boilerGas u := by intro hk; cases hk
        have h2 : VarId.chpGas t ≠ VarId.chpGas u := by
          intro hk; exact hu (by cases hk; rfl)
        simp [h1, h2, hu]

theorem foldl_objStep_boilerGas (a b : Nat → ℚ) (l : List Nat) (m : VarId → ℚ) (t : Nat) :
    (l.foldl (objStep a b) m) (.boilerGas t) =
      if t ∈ l then b t else m (.boilerGas t) := by
  induction l generalizing m with
  | nil => simp
  | cons u l ih =>
    simp only [List.foldl_cons, ih, List.mem_cons]
    by_cases hl : t ∈ l
    · simp [hl]
    · by_cases hu : t = u
      · subst hu
        simp [hl, objStep, setCoeff]
      · simp only [hl, if_false, objStep, setCoeff]
        have h1 : VarId.boilerGas t ≠ VarId.boilerGas u := by
          intro hk; exact hu (by cases hk; rfl)
        have h2 : VarId.boilerGas t ≠ VarId.chpGas u := by intro hk; cases hk
        simp [h1, h2, hu]

theorem foldl_objStep_chpStatus (a b : Nat → ℚ) (l : List Nat) (m : VarId → ℚ) (t : Nat) :
    (l.foldl (objStep a b) m) (.chpStatus t) = m (.chpStatus t) := by
  induction l generalizing m with
  | nil => simp
  | cons u l ih =>
    simp only [List.foldl_cons, ih]
    have h1 : VarId.chpStatus t ≠ VarId.boilerGas u := by intro hk; cases hk
    have h2 : VarId.chpStatus t ≠ VarId.chpGas u := by intro hk; cases hk
    simp [objStep, setCoeff, h1, h2]

theorem buildObjective_chpGas (cfg : Params) (data : SeriesData) (t : Nat)
    (ht : t < data.T) :
    buildObjective cfg data (.chpGas t) = coeffChp cfg data t := by
  simp [buildObjective, foldl_objStep_chpGas, List.mem_range, ht]

theorem buildObjective_boilerGas (cfg : Params) (data : SeriesData) (t : Nat)
    (ht : t < data.T) :
    buildObjective cfg data (.boilerGas t) = coeffBoiler cfg data t := by
  simp [buildObjective, foldl_objStep_boilerGas, List.mem_range, ht]

theorem buildObjective_chpStatus (cfg : Params) (data : SeriesData) (t : Nat) :
    buildObjective cfg data (.chpStatus t) = 0 := by
  simp [buildObjective, foldl_objStep_chpStatus]

theorem buildObjective_chpGas_out (cfg : Params) (data : SeriesData) (t : Nat)
    (ht : data.T ≤ t) :
    buildObjective cfg data (.chpGas t) = 0 := by
  simp [buildObjective, foldl_objStep_chpGas, List.mem_range, Nat.not_lt.mpr ht]

theorem buildObjective_boilerGas_out (cfg : Params) (data : SeriesData) (t : Nat)
    (ht : data.T ≤ t) :
    buildObjective cfg data (.boilerGas t) = 0 := by
  simp [buildObjective, foldl_objStep_boilerGas, List.mem_range, Nat.not_lt.mpr ht]

/-! ## Formulation B: `PyPSAOptimizer` (`src/models/pypsa_model.py`) -/

/-- A variable of the linopy model assembled by PyPSA:
`m["Link-p"].sel(name=link)` at snapshot `t`. -/
inductive PVar where
  | linkP : String → Nat → PVar
deriving DecidableEq

/-- One scalar row of a linopy constraint. -/
structure PRow where
  terms : List (ℚ × PVar)
  rel : CRel
  rhs : ℚ

/-- An assignment satisfies one linopy constraint row. -/
def prowHolds (y : PVar → ℚ) (r : PRow) : Prop :=
  match r.rel with
  | .le => ((r.terms.map fun p => p.1 * y p.2).sum) ≤ r.rhs
  | .ge => r.rhs ≤ ((r.terms.map fun p => p.1 * y p.2).sum)
  | .eq => ((r.terms.map fun p => p.1 * y p.2).sum) = r.rhs

/-- A named constraint of the linopy model (one row per snapshot). -/
structure NamedCon where
  cname : String
  rows : List PRow

/-- Row `t` of the custom constraint `chp_p - boiler_p >= 0`. -/
def chpGeqBoilerRow (t : Nat) : PRow :=
  ⟨[(1, .linkP "CHP" t), (-1, .linkP "Boiler" t)], .ge, 0⟩

/-- The single named constraint `CHP_gas_geq_Boiler_gas` added by
`add_custom_constraints`, vectorized over all snapshots. -/
def chpGeqBoilerCon (T : Nat) : NamedCon :=
  ⟨"CHP_gas_geq_Boiler_gas", (List.range T).map chpGeqBoilerRow⟩

/-- `PyPSAOptimizer.add_custom_constraints`: `m.add_constraints(chp_p -
boiler_p >= 0, name="CHP_gas_geq_Boiler_gas")` appends one named
constraint to the assembled model. -/
def add_custom_constraints (T : Nat) (m : List NamedCon) : List NamedCon :=
  m ++ [chpGeqBoilerCon T]

/-- The solved flow series of the network: `links_t.p0`, `links_t.p1`,
`links_t.p2`, each a mapping from link name to a per-snapshot series,
`none` when the link is absent from the solver output. -/
structure LinksT where
  p0 : String → Option (List ℚ)
  p1 : String → Option (List ℚ)
  p2 : String → Option (List ℚ)

/-- `links_t.pK.get(name, pd.Series([0.0] * len(snaps)))`. -/
def flowOrZero (f : Option (List ℚ)) (T : Nat) : List ℚ :=
  f.getD (List.replicate T 0)

/-- The shared result schema produced by `PyPSAOptimizer._extract_results`. -/
structure PypsaResults where
  chp_gas_in : List ℚ
  chp_el_out : List ℚ
  chp_heat_out : List ℚ
  boiler_gas_in : List ℚ
  boiler_heat_out : List ℚ

/-- `PyPSAOptimizer._extract_results`: gas inputs are taken from `p0`
unchanged; output flows `p1`, `p2` are negated; a link absent from the
solved flows defaults to an all-zero series. -/
def pypsa_extract_results (links : LinksT) (T : Nat) : PypsaResults :=
  { chp_gas_in := flowOrZero (links.p0 "CHP") T
    chp_el_out := (flowOrZero (links.p2 "CHP") T).map (fun v => -v)
    chp_heat_out := (flowOrZero (links.p1 "CHP") T).map (fun v => -v)
    boiler_gas_in := flowOrZero (links.p0 "Boiler") T
    boiler_heat_out := (flowOrZero (links.p1 "Boiler") T).map (fun v => -v) }

/-! ## Formulation A solve workflow (`optimize` / `_solve`) -/

/-- The result schema produced by `ORToolsOptimizer._extract_results`. -/
structure OrResults where
  chp_gas_in : List ℚ
  chp_el_out : List ℚ
  chp_heat_out : List ℚ
  chp_status : List ℚ
  boiler_gas_in : List ℚ
  boiler_heat_out : List ℚ

/-- `ORToolsOptimizer._extract_results` over the solution values of the solver:
derived outputs are `gas * eta`. -/
def or_extract_results (cfg : Params) (chp_gas boiler_gas status : List ℚ) : OrResults :=
  { chp_gas_in := chp_gas
    chp_el_out := chp_gas.map (fun v => v * cfg.chp.eta_el)
    chp_heat_out := chp_gas.map (fun v => v * cfg.chp.eta_th)
    chp_status := status
    boiler_gas_in := boiler_gas
    boiler_heat_out := boiler_gas.map (fun v => v * cfg.boiler.eta_th) }

/-- The `pywraplp` solve status values distinguished by `_solve`. -/
inductive SolveStatus where
  | optimal : SolveStatus
  | feasible : SolveStatus
  | infeasible : SolveStatus
  | unbounded : SolveStatus
  | abnormal : SolveStatus
  | notSolved : SolveStatus
deriving DecidableEq

/-- The mutable fields of `ORToolsOptimizer` relevant to the workflow:
`self.results`, initialised to `None` in `__init__`. -/
structure OrState where
  results : Option OrResults

/-- `self.results = None` in `__init__`. -/
def orInitState : OrState := ⟨none⟩

/-- `_solve`: `self._extract_results()` runs (populating `self.results`)
only when `status == pywraplp.Solver.OPTIMAL`; otherwise the state is
unchanged. `extracted` stands for the table `_extract_results` would
build from the variable values of the solver. -/
def orSolveStep (status : SolveStatus) (extracted : OrResults) (s : OrState) : OrState :=
  if status = .optimal then { results := some extracted } else s

/-- `optimize`: `self._build_model(); self._solve(); return self.results`. -/
def orOptimize (status : SolveStatus) (extracted : OrResults) : Option OrResults :=
  (orSolveStep status extracted orInitState).results

/-! ## Cross-model comparator (`src/utils/analysis.py`, `compare_results`) -/

/-- One row of the comparison table: the keys
`"OR-Tools Total"`, `"PyPSA Total"`, `"Difference"`, `"Diff %"`, `"Match"`. -/
structure MetricRow where
  ortools_total : ℚ
  pypsa_total : ℚ
  difference : ℚ
  diff_pct : ℚ
  matchFlag : Bool
deriving DecidableEq

/-- The `common_cols` list of `compare_results`. -/
def common_cols : List String :=
  ["chp_gas_in", "chp_heat_out", "chp_el_out", "boiler_gas_in", "boiler_heat_out"]

/-- The comparison computed for one shared column:
`diff = abs(ortools_sum - pypsa_sum)`,
`diff_pct = diff / ortools_sum * 100 if ortools_sum != 0 else 0`,
`Match = diff_pct < tolerance * 100`. -/
def compareCol (xs ys : List ℚ) (tol : ℚ) : MetricRow :=
  let ortools_sum := xs.sum
  let pypsa_sum := ys.sum
  let diff := |ortools_sum - pypsa_sum|
  let diff_pct := if ortools_sum ≠ 0 then diff / ortools_sum * 100 else 0
  { ortools_total := ortools_sum
    pypsa_total := pypsa_sum
    difference := diff
    diff_pct := diff_pct
    matchFlag := decide (diff_pct < tol * 100) }

/-- `compare_results`: each result table is a mapping from column name to
its series (`none` when the column is absent); a row is produced for each
common column present in both tables; `tolerance` defaults to `0.01`. -/
def compare_results (results_ortools results_pypsa : String → Option (List ℚ))
    (tolerance : ℚ := 1/100) : List (String × MetricRow) :=
  common_cols.filterMap (fun col =>
    match results_ortools col, results_pypsa col with
    | some xs, some ys => some (col, compareCol xs ys tolerance)
    | _, _ => none)

/-! ## Configuration access (`__init__` / `build_model` key lookups) -/

/-- `config["chp"]` with possibly missing keys. -/
structure RawChp where
  p_gas_max : Option ℚ
  p_gas_min : Option ℚ
  eta_el : Option ℚ
  eta_th : Option ℚ
  marginal_cost : Option ℚ

/-- `config["boiler"]` with possibly missing keys. -/
structure RawBoiler where
  p_gas_max : Option ℚ
  eta_th : Option ℚ
  marginal_cost : Option ℚ

/-- The configuration object with possibly missing keys. -/
structure RawConfig where
  chp : RawChp
  boiler : RawBoiler
  economics_co2_intensity_gas : Option ℚ
  data_co2_price : Option ℚ
  settings_solver : Option String

/-- Python subscript access `d[k]`: raises `KeyError` when missing. -/
def req {α : Type} (o : Option α) (k : String) : Except String α :=
  match o with
  | some v => .ok v
  | none => .error ("KeyError: " ++ k)

/-- The values that `_build_model` of Formulation A reads successfully. -/
structure OrBuildOk where
  solver : String
  params : Params

/-- The configuration reads of `ORToolsOptimizer._build_model`: every
parameter is accessed with `[...]` (raising on a missing key), and
`CreateSolver` failure raises `ValueError(f"{solver_name} not available.")`. -/
def ortoolsBuildParams (avail : String → Bool) (cfg : RawConfig) : Except String OrBuildOk := do
  let solver ← req cfg.settings_solver "solver"
  if avail solver = true then
    let co2p ← req cfg.data_co2_price "co2_price"
    let co2i ← req cfg.economics_co2_intensity_gas "co2_intensity_gas"
    let chp_max ← req cfg.chp.p_gas_max "p_gas_max"
    let chp_min ← req cfg.chp.p_gas_min "p_gas_min"
    let chp_eta_el ← req cfg.chp.eta_el "eta_el"
    let chp_eta_th ← req cfg.chp.eta_th "eta_th"
    let chp_mc ← req cfg.chp.marginal_cost "marginal_cost"
    let b_max ← req cfg.boiler.p_gas_max "p_gas_max"
    let b_eta ← req cfg.boiler.eta_th "eta_th"
    let b_mc ← req cfg.boiler.marginal_cost "marginal_cost"
    pure ⟨solver, ⟨⟨chp_max, chp_min, chp_eta_el, chp_eta_th, chp_mc⟩,
      ⟨b_max, b_eta, b_mc⟩, co2i, co2p⟩⟩
  else
    .error (solver ++ " not available.")

/-- The component attributes `PyPSAOptimizer.build_model` passes to the
framework. -/
structure PypsaBuildOk where
  co2_price : ℚ
  co2_intensity : ℚ
  chp_eta_th : ℚ
  chp_eta_el : ℚ
  chp_p_gas_max : ℚ
  chp_p_min_pu : ℚ
  chp_marginal_cost : Option ℚ
  boiler_eta_th : ℚ
  boiler_p_gas_max : ℚ
  boiler_marginal_cost : Option ℚ
deriving DecidableEq

/-- The configuration reads of `PyPSAOptimizer.build_model`:
`cfg["data"]["co2_price"]`, `cfg["economics"]["co2_intensity_gas"]` and the
CHP keys `eta_th`, `eta_el`, `p_gas_max`, `p_gas_min` plus the boiler key
`p_gas_max` are accessed with `[...]` (raising on a missing key), while
`cfg["chp"].get("marginal_cost")` and `cfg["boiler"].get("marginal_cost")`
yield `None` and `cfg["boiler"].get("eta_th", 0.836)` yields `0.836` when
the key is missing. -/
def pypsaBuildModel (cfg : RawConfig) : Except String PypsaBuildOk := do
  let co2p ← req cfg.data_co2_price "co2_price"
  let co2i ← req cfg.economics_co2_intensity_gas "co2_intensity_gas"
  let eta_th ← req cfg.chp.eta_th "eta_th"
  let eta_el ← req cfg.chp.eta_el "eta_el"
  let pmax ← req cfg.chp.p_gas_max "p_gas_max"
  let pmin ← req cfg.chp.p_gas_min "p_gas_min"
  let bmax ← req cfg.boiler.p_gas_max "p_gas_max"
  pure { co2_price := co2p
         co2_intensity := co2i
         chp_eta_th := eta_th
         chp_eta_el := eta_el
         chp_p_gas_max := pmax
         chp_p_min_pu := pmin / pmax
         chp_marginal_cost := cfg.chp.marginal_cost
         boiler_eta_th := (cfg.boiler.eta_th).getD (836/1000)
         boiler_p_gas_max := bmax
         boiler_marginal_cost := cfg.boiler.marginal_cost }

/-! ## Concrete instances used as witnesses -/

/-- A small parameter set: CHP max 2, min 1, `eta_el = eta_th = 1/2`,
boiler max 10, `eta_th = 1/2`, zero costs. -/
def exParams : Params :=
  ⟨⟨2, 1, 1/2, 1/2, 0⟩, ⟨10, 1/2, 0⟩, 0, 0⟩

/-- A one-step horizon with heat demand 3. -/
def exData : SeriesData :=
  ⟨1, fun _ => 0, fun _ => 0, fun _ => 3⟩

/-- CHP off, boiler covering the demand alone. -/
def exAssign : VarId → ℚ
  | .chpGas _ => 0
  | .chpStatus _ => 0
  | .boilerGas _ => 6

theorem exAssign_satisfies : satisfies (buildModel exParams exData) exAssign := by
  rw [satisfies_buildModel_iff]
  intro t ht
  have h1 : t = 0 := by
    simp only [exData] at ht
    omega
  subst h1
  norm_num [exParams, exData, exAssign]

/-! ## `isOk` characterisations of the configuration reads -/

theorem isOk_req_bind {α β : Type} (o : Option α) (k : String) (f : α → Except String β) :
    ((req o k >>= f).isOk = true) ↔ ∃ a, o = some a ∧ (f a).isOk = true := by
  cases o <;> simp [req, bind, Except.bind, Except.isOk, Except.toBool]

theorem isOk_pure {α : Type} (a : α) :
    ((pure a : Except String α).isOk = true) := rfl

theorem isOk_map_req {α β : Type} (o : Option α) (k : String) (g : α → β) :
    ((g <$> (req o k : Except String α)).isOk = true) ↔ ∃ a, o = some a := by
  cases o <;> simp [req, Functor.map, Except.map, Except.isOk, Except.toBool]

theorem pypsaBuildModel_isOk_iff (cfg : RawConfig) :
    (pypsaBuildModel cfg).isOk = true ↔
      cfg.data_co2_price.isSome ∧ cfg.economics_co2_intensity_gas.isSome ∧
      cfg.chp.eta_th.isSome ∧ cfg.chp.eta_el.isSome ∧
      cfg.chp.p_gas_max.isSome ∧ cfg.chp.p_gas_min.isSome ∧
      cfg.boiler.p_gas_max.isSome := by
  simp only [pypsaBuildModel, isOk_req_bind, isOk_pure, and_true]
  simp [Option.isSome_iff_exists]

theorem req_bind_ok {α β : Type} (o : Option α) (k : String) (f : α → Except String β)
    (b : β) :
    (req o k >>= f) = .ok b ↔ ∃ a, o = some a ∧ f a = .ok b := by
  cases o
  · simp [req, bind, Except.bind]
  · simp [req, bind, Except.bind]

theorem pure_ok {α : Type} (a b : α) :
    ((pure a : Except String α) = .ok b) ↔ a = b := by
  simp [pure, Except.pure]

theorem pypsaBuildModel_ok_defaults (cfg : RawConfig) (p : PypsaBuildOk)
    (h : pypsaBuildModel cfg = .ok p) :
    p.boiler_eta_th = (cfg.boiler.eta_th).getD (836/1000) ∧
    p.chp_marginal_cost = cfg.chp.marginal_cost ∧
    p.boiler_marginal_cost = cfg.boiler.marginal_cost := by
  simp only [pypsaBuildModel, req_bind_ok, pure_ok] at h
  obtain ⟨a1, h1, a2, h2, a3, h3, a4, h4, a5, h5, a6, h6, a7, h7, hp⟩ := h
  subst hp
  exact ⟨rfl, rfl, rfl⟩

theorem ortoolsBuildParams_isOk_iff (avail : String → Bool) (cfg : RawConfig) :
    (ortoolsBuildParams avail cfg).isOk = true ↔
      (∃ s, cfg.settings_solver = some s ∧ avail s = true) ∧
      cfg.data_co2_price.isSome ∧ cfg.economics_co2_intensity_gas.isSome ∧
      cfg.chp.p_gas_max.isSome ∧ cfg.chp.p_gas_min.isSome ∧
      cfg.chp.eta_el.isSome ∧ cfg.chp.eta_th.isSome ∧
      cfg.chp.marginal_cost.isSome ∧
      cfg.boiler.p_gas_max.isSome ∧ cfg.boiler.eta_th.isSome ∧
      cfg.boiler.marginal_cost.isSome := by
  cases hs : cfg.settings_solver with
  | none =>
    simp [ortoolsBuildParams, hs, req, Except.isOk, Except.toBool, bind, Except.bind]
  | some s =>
    by_cases ha : avail s = true
    · simp only [ortoolsBuildParams, hs, isOk_req_bind, isOk_map_req, isOk_pure, and_true,
        Option.some_inj, exists_eq_left, ha, if_true]
      simp [isOk_req_bind, isOk_map_req, isOk_pure, Option.isSome_iff_exists, ha]
    · simp only [ortoolsBuildParams, hs, isOk_req_bind, Option.some_inj, exists_eq_left, ha,
        if_false, Bool.false_eq_true]
      simp [Except.isOk, Except.toBool, ha]

/-! ## More concrete instances for witnesses -/

/-- Solved flows with both links present and non-positive outputs. -/
def exLinks : LinksT :=
  ⟨fun n => if n = "CHP" then some [2] else if n = "Boiler" then some [4] else none,
   fun n => if n = "CHP" then some [-1] else if n = "Boiler" then some [-2] else none,
   fun n => if n = "CHP" then some [-(1/2)] else none⟩

/-- Solved flows with no recorded link at all. -/
def exNoLinks : LinksT := ⟨fun _ => none, fun _ => none, fun _ => none⟩

/-- A concrete extracted result table. -/
def exOrResults : OrResults := or_extract_results exParams [0] [6] [0]

/-- A configuration complete except for the missing `boiler.eta_th`. -/
def cfgNoBoilerEta : RawConfig :=
  ⟨⟨some 4, some 1, some (2/5), some (1/2), some 3⟩,
   ⟨some 10, none, some 2⟩, some (1/5), some 30, some "SCIP"⟩

/-- The component attributes `build_model` produces on `cfgNoBoilerEta`. -/
def exPypsaOk : PypsaBuildOk :=
  ⟨30, 1/5, 1/2, 2/5, 4, 1/4, some 3, 836/1000, 10, some 2⟩

/-! ## Claims -/

/-- C1: Formulation A builds, for every time step `t` of the horizon, exactly
the variables and constraints of the spec: a continuous `chp_gas_in[t]` bounded in
`[0, p_gas_max_chp]`, a binary `chp_status[t]`, a continuous
`boiler_gas_in[t]` bounded in `[0, p_gas_max_boiler]`, the two
commitment-coupling inequalities `chp_gas_in[t] ≤ p_gas_max_chp *
chp_status[t]` and `chp_gas_in[t] ≥ p_gas_min_chp * chp_status[t]`, and the
heat-balance equality `eta_th_chp * chp_gas_in[t] + eta_th_boiler *
boiler_gas_in[t] = heat_demand[t]`: an assignment satisfies the built model
iff it meets precisely these conditions at every step. -/
theorem C1_formulationA_builds_spec_model (cfg : Params) (data : SeriesData)
    (x : VarId → ℚ) :
    satisfies (buildModel cfg data) x ↔
      ∀ t < data.T,
        (0 ≤ x (.chpGas t) ∧ x (.chpGas t) ≤ cfg.chp.p_gas_max) ∧
        (x (.chpStatus t) = 0 ∨ x (.chpStatus t) = 1) ∧
        (0 ≤ x (.boilerGas t) ∧ x (.boilerGas t) ≤ cfg.boiler.p_gas_max) ∧
        x (.chpGas t) ≤ cfg.chp.p_gas_max * x (.chpStatus t) ∧
        cfg.chp.p_gas_min * x (.chpStatus t) ≤ x (.chpGas t) ∧
        cfg.chp.eta_th * x (.chpGas t) + cfg.boiler.eta_th * x (.boilerGas t)
          = data.demand_th t :=
  satisfies_buildModel_iff cfg data x

/-- C2: the maximized objective of Formulation A assigns, for every `t` in the
horizon, the coefficient `price_electricity[t] * eta_el_chp -
gas_cost_total[t] - marginal_cost_chp` to `chp_gas_in[t]` and
`-(gas_cost_total[t] + marginal_cost_boiler)` to `boiler_gas_in[t]`, with
`gas_cost_total[t] = price_gas[t] + co2_price * co2_intensity_gas`; no other
variable (the status variables, and gas variables outside the horizon)
carries a coefficient, and the sense is maximization. -/
theorem C2_objective_coefficients (cfg : Params) (data : SeriesData)
    (t u : Nat) (ht : t < data.T) (hu : data.T ≤ u) :
    buildObjective cfg data (.chpGas t)
      = data.price_el t * cfg.chp.eta_el
        - (data.price_gas t + cfg.co2_price * cfg.co2_intensity_gas)
        - cfg.chp.marginal_cost ∧
    buildObjective cfg data (.boilerGas t)
      = -((data.price_gas t + cfg.co2_price * cfg.co2_intensity_gas)
          + cfg.boiler.marginal_cost) ∧
    (∀ v, buildObjective cfg data (.chpStatus v) = 0) ∧
    buildObjective cfg data (.chpGas u) = 0 ∧
    buildObjective cfg data (.boilerGas u) = 0 ∧
    (buildModel cfg data).maximize = true := by
  refine ⟨?_, ?_, fun v => buildObjective_chpStatus cfg data v,
    buildObjective_chpGas_out cfg data u hu,
    buildObjective_boilerGas_out cfg data u hu, rfl⟩
  · rw [buildObjective_chpGas cfg data t ht]
    simp [coeffChp, gasCostTotal]
  · rw [buildObjective_boilerGas cfg data t ht]
    simp [coeffBoiler, gasCostTotal]
    ring

theorem C2_objective_coefficients_witness :
    (0 : Nat) < exData.T ∧ exData.T ≤ 1 ∧
    (buildObjective exParams exData (.chpGas 0)
      = exData.price_el 0 * exParams.chp.eta_el
        - (exData.price_gas 0 + exParams.co2_price * exParams.co2_intensity_gas)
        - exParams.chp.marginal_cost ∧
    buildObjective exParams exData (.boilerGas 0)
      = -((exData.price_gas 0 + exParams.co2_price * exParams.co2_intensity_gas)
          + exParams.boiler.marginal_cost) ∧
    (∀ v, buildObjective exParams exData (.chpStatus v) = 0) ∧
    buildObjective exParams exData (.chpGas 1) = 0 ∧
    buildObjective exParams exData (.boilerGas 1) = 0 ∧
    (buildModel exParams exData).maximize = true) :=
  ⟨by decide, by decide,
   C2_objective_coefficients exParams exData 0 1 (by decide) (by decide)⟩

/-- C3: the result extraction of Formulation B takes `chp_gas_in` and
`boiler_gas_in` from the input flow `p0` unchanged and negates the output
flows (`chp_heat_out = -p1`, `chp_el_out = -p2` of the CHP link,
`boiler_heat_out = -p1` of the Boiler link); consequently the extracted
outputs are non-negative whenever the output flows of the backend are
non-positive. -/
theorem C3_extraction_sign_normalization (links : LinksT) (T : Nat)
    (h1 : ∀ v ∈ flowOrZero (links.p1 "CHP") T, v ≤ 0)
    (h2 : ∀ v ∈ flowOrZero (links.p2 "CHP") T, v ≤ 0)
    (h3 : ∀ v ∈ flowOrZero (links.p1 "Boiler") T, v ≤ 0) :
    (pypsa_extract_results links T).chp_gas_in = flowOrZero (links.p0 "CHP") T ∧
    (pypsa_extract_results links T).boiler_gas_in = flowOrZero (links.p0 "Boiler") T ∧
    (pypsa_extract_results links T).chp_heat_out
      = (flowOrZero (links.p1 "CHP") T).map (fun v => -v) ∧
    (pypsa_extract_results links T).chp_el_out
      = (flowOrZero (links.p2 "CHP") T).map (fun v => -v) ∧
    (pypsa_extract_results links T).boiler_heat_out
      = (flowOrZero (links.p1 "Boiler") T).map (fun v => -v) ∧
    (∀ w ∈ (pypsa_extract_results links T).chp_heat_out, 0 ≤ w) ∧
    (∀ w ∈ (pypsa_extract_results links T).chp_el_out, 0 ≤ w) ∧
    (∀ w ∈ (pypsa_extract_results links T).boiler_heat_out, 0 ≤ w) := by
  refine ⟨rfl, rfl, rfl, rfl, rfl, ?_, ?_, ?_⟩ <;> intro w hw
  · simp only [pypsa_extract_results, List.mem_map] at hw
    obtain ⟨v, hv, rfl⟩ := hw
    linarith [h1 v hv]
  · simp only [pypsa_extract_results, List.mem_map] at hw
    obtain ⟨v, hv, rfl⟩ := hw
    linarith [h2 v hv]
  · simp only [pypsa_extract_results, List.mem_map] at hw
    obtain ⟨v, hv, rfl⟩ := hw
    linarith [h3 v hv]

theorem C3_extraction_sign_normalization_witness :
    (∀ v ∈ flowOrZero (exLinks.p1 "CHP") 1, v ≤ 0) ∧
    (∀ v ∈ flowOrZero (exLinks.p2 "CHP") 1, v ≤ 0) ∧
    (∀ v ∈ flowOrZero (exLinks.p1 "Boiler") 1, v ≤ 0) ∧
    ((pypsa_extract_results exLinks 1).chp_gas_in = flowOrZero (exLinks.p0 "CHP") 1 ∧
    (pypsa_extract_results exLinks 1).boiler_gas_in = flowOrZero (exLinks.p0 "Boiler") 1 ∧
    (pypsa_extract_results exLinks 1).chp_heat_out
      = (flowOrZero (exLinks.p1 "CHP") 1).map (fun v => -v) ∧
    (pypsa_extract_results exLinks 1).chp_el_out
      = (flowOrZero (exLinks.p2 "CHP") 1).map (fun v => -v) ∧
    (pypsa_extract_results exLinks 1).boiler_heat_out
      = (flowOrZero (exLinks.p1 "Boiler") 1).map (fun v => -v) ∧
    (∀ w ∈ (pypsa_extract_results exLinks 1).chp_heat_out, 0 ≤ w) ∧
    (∀ w ∈ (pypsa_extract_results exLinks 1).chp_el_out, 0 ≤ w) ∧
    (∀ w ∈ (pypsa_extract_results exLinks 1).boiler_heat_out, 0 ≤ w)) :=
  ⟨by norm_num [exLinks, flowOrZero], by norm_num [exLinks, flowOrZero],
   by have h : ("Boiler" : String) ≠ "CHP" := by decide
      norm_num [exLinks, flowOrZero, h],
   C3_extraction_sign_normalization exLinks 1 (by norm_num [exLinks, flowOrZero])
     (by norm_num [exLinks, flowOrZero])
     (by have h : ("Boiler" : String) ≠ "CHP" := by decide
         norm_num [exLinks, flowOrZero, h])⟩

theorem prowHolds_chpGeqBoilerRow (y : PVar → ℚ) (t : Nat) :
    prowHolds y (chpGeqBoilerRow t) ↔
      y (.linkP "Boiler" t) ≤ y (.linkP "CHP" t) := by
  simp only [prowHolds, chpGeqBoilerRow, List.map_cons, List.map_nil, List.sum_cons,
    List.sum_nil]
  constructor <;> intro h <;> linarith

/-- C4: `add_custom_constraints` appends exactly one custom constraint to the
assembled model, named `CHP_gas_geq_Boiler_gas`, whose rows hold under an
assignment iff the CHP gas input is at least the boiler gas input at every
time step; Formulation A imposes no such inequality: its built model admits
an assignment with `chp_gas_in < boiler_gas_in`. -/
theorem C4_custom_constraint_only_in_formulationB (T : Nat)
    (m : List NamedCon) (y : PVar → ℚ) :
    add_custom_constraints T m = m ++ [chpGeqBoilerCon T] ∧
    (add_custom_constraints T m).length = m.length + 1 ∧
    (chpGeqBoilerCon T).cname = "CHP_gas_geq_Boiler_gas" ∧
    ((∀ r ∈ (chpGeqBoilerCon T).rows, prowHolds y r) ↔
      ∀ t < T, y (.linkP "Boiler" t) ≤ y (.linkP "CHP" t)) ∧
    (∃ x, satisfies (buildModel exParams exData) x ∧
      x (.chpGas 0) < x (.boilerGas 0)) := by
  refine ⟨rfl, by simp [add_custom_constraints], rfl, ?_,
    ⟨exAssign, exAssign_satisfies, by norm_num [exAssign]⟩⟩
  simp [chpGeqBoilerCon, List.forall_mem_map, List.mem_range,
    prowHolds_chpGeqBoilerRow]

/-- C5: the comparator computes, for each of the five shared metrics, the
horizon total from each formulation, their absolute difference, the
percentage difference relative to the Formulation A total, and a match flag
that is true exactly when the percentage difference is below the tolerance;
the default tolerance is 1% (`0.01`). -/
theorem C5_comparator_per_metric (a b : String → Option (List ℚ)) (tol : ℚ)
    (xs ys : List ℚ) (h : xs.sum ≠ 0) :
    common_cols = ["chp_gas_in", "chp_heat_out", "chp_el_out",
      "boiler_gas_in", "boiler_heat_out"] ∧
    compare_results a b = compare_results a b (1/100) ∧
    (∀ col ∈ common_cols, ∀ u v : List ℚ, a col = some u → b col = some v →
      (col, compareCol u v tol) ∈ compare_results a b tol) ∧
    (compareCol xs ys tol).ortools_total = xs.sum ∧
    (compareCol xs ys tol).pypsa_total = ys.sum ∧
    (compareCol xs ys tol).difference = |xs.sum - ys.sum| ∧
    (compareCol xs ys tol).diff_pct = |xs.sum - ys.sum| / xs.sum * 100 ∧
    ((compareCol xs ys tol).matchFlag = true ↔
      (compareCol xs ys tol).diff_pct < tol * 100) := by
  refine ⟨rfl, rfl, ?_, rfl, rfl, rfl, ?_, ?_⟩
  · intro col hcol u v ha hb
    simp only [compare_results, List.mem_filterMap]
    exact ⟨col, hcol, by rw [ha, hb]⟩
  · simp [compareCol, h]
  · simp [compareCol, decide_eq_true_eq]

/-- The two full result tables used by the C5 witness. -/
def exTableA : String → Option (List ℚ) := fun _ => some [2]

def exTableB : String → Option (List ℚ) := fun _ => some [3]

theorem C5_comparator_per_metric_witness :
    List.sum [(2 : ℚ)] ≠ 0 ∧
    (common_cols = ["chp_gas_in", "chp_heat_out", "chp_el_out",
      "boiler_gas_in", "boiler_heat_out"] ∧
    compare_results exTableA exTableB = compare_results exTableA exTableB (1/100) ∧
    (∀ col ∈ common_cols, ∀ u v : List ℚ,
      exTableA col = some u → exTableB col = some v →
      (col, compareCol u v (1/100)) ∈ compare_results exTableA exTableB (1/100)) ∧
    (compareCol [(2 : ℚ)] [(3 : ℚ)] (1/100)).ortools_total = List.sum [(2 : ℚ)] ∧
    (compareCol [(2 : ℚ)] [(3 : ℚ)] (1/100)).pypsa_total = List.sum [(3 : ℚ)] ∧
    (compareCol [(2 : ℚ)] [(3 : ℚ)] (1/100)).difference
      = |List.sum [(2 : ℚ)] - List.sum [(3 : ℚ)]| ∧
    (compareCol [(2 : ℚ)] [(3 : ℚ)] (1/100)).diff_pct
      = |List.sum [(2 : ℚ)] - List.sum [(3 : ℚ)]| / List.sum [(2 : ℚ)] * 100 ∧
    ((compareCol [(2 : ℚ)] [(3 : ℚ)] (1/100)).matchFlag = true ↔
      (compareCol [(2 : ℚ)] [(3 : ℚ)] (1/100)).diff_pct < (1/100) * 100)) :=
  ⟨by norm_num,
   C5_comparator_per_metric exTableA exTableB (1/100) [2] [3] (by norm_num)⟩

/-- C6: any assignment satisfying the built constraints of Formulation A has, at
every step `t` of the horizon: `chp_status[t] = 0` forces
`chp_gas_in[t] = 0` exactly, and `chp_status[t] = 1` forces
`p_gas_min_chp ≤ chp_gas_in[t] ≤ p_gas_max_chp`. -/
theorem C6_commitment_band (cfg : Params) (data : SeriesData) (x : VarId → ℚ)
    (t : Nat) (hs : satisfies (buildModel cfg data) x) (ht : t < data.T) :
    (x (.chpStatus t) = 0 → x (.chpGas t) = 0) ∧
    (x (.chpStatus t) = 1 →
      cfg.chp.p_gas_min ≤ x (.chpGas t) ∧ x (.chpGas t) ≤ cfg.chp.p_gas_max) := by
  obtain ⟨-, -, -, hle, hge, -⟩ := (satisfies_buildModel_iff cfg data x).mp hs t ht
  constructor
  · intro h0
    rw [h0, mul_zero] at hle hge
    linarith
  · intro h1
    rw [h1, mul_one] at hle hge
    exact ⟨hge, hle⟩

theorem C6_commitment_band_witness :
    satisfies (buildModel exParams exData) exAssign ∧ (0 : Nat) < exData.T ∧
    ((exAssign (.chpStatus 0) = 0 → exAssign (.chpGas 0) = 0) ∧
     (exAssign (.chpStatus 0) = 1 →
       exParams.chp.p_gas_min ≤ exAssign (.chpGas 0) ∧
       exAssign (.chpGas 0) ≤ exParams.chp.p_gas_max)) :=
  ⟨exAssign_satisfies, by decide,
   C6_commitment_band exParams exData exAssign 0 exAssign_satisfies (by decide)⟩

/-- C7: when the solver returns any status other than optimal, `optimize()`
returns `None`: `_solve` leaves `self.results` at its initial `None` and no
fields are populated. -/
theorem C7_non_optimal_returns_none (status : SolveStatus) (r : OrResults)
    (h : status ≠ .optimal) :
    orOptimize status r = none := by
  simp [orOptimize, orSolveStep, orInitState, h]

theorem C7_non_optimal_returns_none_witness :
    SolveStatus.infeasible ≠ SolveStatus.optimal ∧
    orOptimize .infeasible exOrResults = none :=
  ⟨by decide, C7_non_optimal_returns_none .infeasible exOrResults (by decide)⟩

/-- C8: if a link (`"CHP"` or `"Boiler"`) is absent from the solved flows,
the corresponding result columns are filled with `0.0` for every time step
and extraction completes. -/
theorem C8_missing_link_defaults_to_zero (links : LinksT) (T : Nat) :
    (links.p0 "CHP" = none → links.p1 "CHP" = none → links.p2 "CHP" = none →
      (pypsa_extract_results links T).chp_gas_in = List.replicate T 0 ∧
      (pypsa_extract_results links T).chp_el_out = List.replicate T 0 ∧
      (pypsa_extract_results links T).chp_heat_out = List.replicate T 0) ∧
    (links.p0 "Boiler" = none → links.p1 "Boiler" = none →
      (pypsa_extract_results links T).boiler_gas_in = List.replicate T 0 ∧
      (pypsa_extract_results links T).boiler_heat_out = List.replicate T 0) := by
  constructor
  · intro h0 h1 h2
    refine ⟨?_, ?_, ?_⟩ <;>
      simp [pypsa_extract_results, flowOrZero, h0, h1, h2, List.map_replicate]
  · intro h0 h1
    refine ⟨?_, ?_⟩ <;>
      simp [pypsa_extract_results, flowOrZero, h0, h1, List.map_replicate]

theorem C8_missing_link_defaults_to_zero_witness :
    ((pypsa_extract_results exNoLinks 2).chp_gas_in = List.replicate 2 0 ∧
     (pypsa_extract_results exNoLinks 2).chp_el_out = List.replicate 2 0 ∧
     (pypsa_extract_results exNoLinks 2).chp_heat_out = List.replicate 2 0) ∧
    ((pypsa_extract_results exNoLinks 2).boiler_gas_in = List.replicate 2 0 ∧
     (pypsa_extract_results exNoLinks 2).boiler_heat_out = List.replicate 2 0) :=
  ⟨(C8_missing_link_defaults_to_zero exNoLinks 2).1 rfl rfl rfl,
   (C8_missing_link_defaults_to_zero exNoLinks 2).2 rfl rfl⟩

/-- C9 counterexample: a configuration with `boiler.eta_th` missing is not
fatal for Formulation B: the reads of `build_model` succeed and silently
substitute the default `0.836`, contradicting the claim that a missing
required parameter is surfaced immediately as a raised error with no
silently substituted default. -/
theorem C9_counterexample_missing_key_not_fatal :
    cfgNoBoilerEta.boiler.eta_th = none ∧
    pypsaBuildModel cfgNoBoilerEta = .ok exPypsaOk ∧
    exPypsaOk.boiler_eta_th = 836/1000 := by
  refine ⟨rfl, ?_, rfl⟩
  norm_num [pypsaBuildModel, cfgNoBoilerEta, exPypsaOk, req, bind, Except.bind,
    pure, Except.pure, Option.getD]

/-- C9 (amended): a missing required parameter is fatal for Formulation A
(every key is read with a raising subscript, and an unavailable solver
raises); Formulation B raises on its subscript-read keys
(`data.co2_price`, `economics.co2_intensity_gas`, `chp.{eta_th, eta_el,
p_gas_max, p_gas_min}`, `boiler.p_gas_max`) but silently substitutes
defaults for the rest: `0.836` for a missing `boiler.eta_th` and `None` for
a missing `chp.marginal_cost` or `boiler.marginal_cost`. -/
theorem C9_amended_config_error_handling (avail : String → Bool)
    (cfg : RawConfig) (p : PypsaBuildOk) (hp : pypsaBuildModel cfg = .ok p) :
    ((ortoolsBuildParams avail cfg).isOk = true ↔
      (∃ s, cfg.settings_solver = some s ∧ avail s = true) ∧
      cfg.data_co2_price.isSome ∧ cfg.economics_co2_intensity_gas.isSome ∧
      cfg.chp.p_gas_max.isSome ∧ cfg.chp.p_gas_min.isSome ∧
      cfg.chp.eta_el.isSome ∧ cfg.chp.eta_th.isSome ∧
      cfg.chp.marginal_cost.isSome ∧
      cfg.boiler.p_gas_max.isSome ∧ cfg.boiler.eta_th.isSome ∧
      cfg.boiler.marginal_cost.isSome) ∧
    ((pypsaBuildModel cfg).isOk = true ↔
      cfg.data_co2_price.isSome ∧ cfg.economics_co2_intensity_gas.isSome ∧
      cfg.chp.eta_th.isSome ∧ cfg.chp.eta_el.isSome ∧
      cfg.chp.p_gas_max.isSome ∧ cfg.chp.p_gas_min.isSome ∧
      cfg.boiler.p_gas_max.isSome) ∧
    (p.boiler_eta_th = (cfg.boiler.eta_th).getD (836/1000) ∧
     p.chp_marginal_cost = cfg.chp.marginal_cost ∧
     p.boiler_marginal_cost = cfg.boiler.marginal_cost) :=
  ⟨ortoolsBuildParams_isOk_iff avail cfg, pypsaBuildModel_isOk_iff cfg,
   pypsaBuildModel_ok_defaults cfg p hp⟩

theorem C9_amended_config_error_handling_witness :
    pypsaBuildModel cfgNoBoilerEta = .ok exPypsaOk ∧
    (((ortoolsBuildParams (fun _ => true) cfgNoBoilerEta).isOk = true ↔
      (∃ s, cfgNoBoilerEta.settings_solver = some s ∧ (fun _ : String => true) s = true) ∧
      cfgNoBoilerEta.data_co2_price.isSome ∧
      cfgNoBoilerEta.economics_co2_intensity_gas.isSome ∧
      cfgNoBoilerEta.chp.p_gas_max.isSome ∧ cfgNoBoilerEta.chp.p_gas_min.isSome ∧
      cfgNoBoilerEta.chp.eta_el.isSome ∧ cfgNoBoilerEta.chp.eta_th.isSome ∧
      cfgNoBoilerEta.chp.marginal_cost.isSome ∧
      cfgNoBoilerEta.boiler.p_gas_max.isSome ∧ cfgNoBoilerEta.boiler.eta_th.isSome ∧
      cfgNoBoilerEta.boiler.marginal_cost.isSome) ∧
    ((pypsaBuildModel cfgNoBoilerEta).isOk = true ↔
      cfgNoBoilerEta.data_co2_price.isSome ∧
      cfgNoBoilerEta.economics_co2_intensity_gas.isSome ∧
      cfgNoBoilerEta.chp.eta_th.isSome ∧ cfgNoBoilerEta.chp.eta_el.isSome ∧
      cfgNoBoilerEta.chp.p_gas_max.isSome ∧ cfgNoBoilerEta.chp.p_gas_min.isSome ∧
      cfgNoBoilerEta.boiler.p_gas_max.isSome) ∧
    (exPypsaOk.boiler_eta_th = (cfgNoBoilerEta.boiler.eta_th).getD (836/1000) ∧
     exPypsaOk.chp_marginal_cost = cfgNoBoilerEta.chp.marginal_cost ∧
     exPypsaOk.boiler_marginal_cost = cfgNoBoilerEta.boiler.marginal_cost)) := by
  have hp : pypsaBuildModel cfgNoBoilerEta = .ok exPypsaOk := by
    norm_num [pypsaBuildModel, cfgNoBoilerEta, exPypsaOk, req, bind, Except.bind,
      pure, Except.pure, Option.getD]
  exact ⟨hp,
    C9_amended_config_error_handling (fun _ => true) cfgNoBoilerEta exPypsaOk hp⟩

/-- C10: for any metric whose Formulation A horizon total is 0, the reported
percentage difference is 0 and (for any positive tolerance, in particular
the default 1%) the match flag is true regardless of the Formulation B
total. -/
theorem C10_zero_ortools_total_always_matches (xs ys : List ℚ) (tol : ℚ)
    (h0 : xs.sum = 0) (htol : 0 < tol) :
    (compareCol xs ys tol).diff_pct = 0 ∧
    (compareCol xs ys tol).matchFlag = true := by
  constructor
  · simp [compareCol, h0]
  · simp only [compareCol, h0, ne_eq, not_true_eq_false, if_false, reduceIte,
      decide_eq_true_eq]
    linarith

theorem C10_zero_ortools_total_always_matches_witness :
    List.sum [(1 : ℚ), -1] = 0 ∧ (0 : ℚ) < 1/100 ∧
    ((compareCol [(1 : ℚ), -1] [1000] (1/100)).diff_pct = 0 ∧
     (compareCol [(1 : ℚ), -1] [1000] (1/100)).matchFlag = true) :=
  ⟨by norm_num, by norm_num,
   C10_zero_ortools_total_always_matches [1, -1] [1000] (1/100) (by norm_num)
     (by norm_num)⟩
